import Mathlib

/-!
Verification of the session/transport/dispatch layer of the playwright-mcp
server. The definitions below are a shallow embedding of the TypeScript
sources: src/src/server.ts (capability filtering, the list-tools and
call-tool request handlers, the exit watchdog), src/src/tools/search.ts
(the tool catalogue), src/src/types.ts (the data model) and the HTTP
entry point (the streamable-HTTP and SSE transport handlers).

Asynchronous functions that may reject are embedded as functions into
`Except String`; the string is the `String(error)` rendering of the
fault. The mock execution context built in `Server.createConnection`
(all page operations succeed and return empty data) is baked into the
embedded `handle` functions of the concrete tools, exactly as running
the source against that context would behave. A thunk that the
dispatcher invokes at most once (`result.action`) is embedded as the
outcome of that single invocation.
-/

namespace PlaywrightMcp

/-- The `ToolCapability` union from src/src/types.ts. -/
inductive ToolCapability
  | core
  | history
  | console
  | dialogs
  | files
  | keyboard
  | network
  | pdf
  | screenshot
  | tabs
  | testing
  | vision
  | wait
deriving DecidableEq, Repr

/-- Type of a field of a zod object schema (z.string, z.number, z.boolean). -/
inductive FieldType
  | str
  | num
  | bool
deriving DecidableEq, Repr

/-- One field of a zod object input schema: its key, its type, and whether
it is required (no `.optional()`). -/
structure SchemaField where
  name : String
  fieldType : FieldType
  required : Bool
deriving DecidableEq, Repr

/-- A zod object input schema, as declared in src/src/tools/search.ts. -/
abbrev InputSchema := List SchemaField

/-- The readOnly/destructive classification of a tool schema. -/
inductive ToolType
  | readOnly
  | destructive
deriving DecidableEq, Repr

/-- `ToolSchema` from src/src/types.ts. -/
structure ToolSchema where
  name : String
  title : String
  description : String
  inputSchema : InputSchema
  type : ToolType
deriving DecidableEq, Repr

/-- A JavaScript value as it appears in a tool-call arguments mapping;
`undefined` is the `undefined` read off a missing property. -/
inductive Value
  | str (s : String)
  | num (n : Int)
  | bool (b : Bool)
  | undefined
deriving DecidableEq, Repr

/-- The raw `request.params.arguments` mapping. -/
abbrev Args := List (String × Value)

/-- Property access `params.key` on the arguments object: a missing key
reads as `undefined`. -/
def getArg (args : Args) (key : String) : Value :=
  match args.lookup key with
  | some v => v
  | none => .undefined

/-- JavaScript template-literal rendering of a value. -/
def Value.render : Value → String
  | .str s => s
  | .num n => toString n
  | .bool b => if b then "true" else "false"
  | .undefined => "undefined"

/-- JavaScript truthiness of a value (empty string is falsy, `undefined`
is falsy). -/
def Value.truthy : Value → Bool
  | .str s => s ≠ ""
  | .num n => n ≠ 0
  | .bool b => b
  | .undefined => false

/-- A content item of a tool result (`TextContent` or `ImageContent`). -/
inductive ContentItem
  | text (text : String)
  | image (data : String) (mimeType : String)
deriving DecidableEq, Repr

/-- `ToolActionResult` from src/src/types.ts: an object whose `content`
property may be present or absent. (The `undefined | void` alternatives
of the union are embedded as `Option ToolActionResult` at the use
site.) -/
structure ToolActionResult where
  content : Option (List ContentItem)
deriving DecidableEq, Repr

/-- `ToolResult` from src/src/types.ts. The optional `action` thunk is
embedded as the outcome of its single invocation by the dispatcher:
`none` when the result has no action, `some (.error e)` when the action
rejects with fault text `e`, and `some (.ok r)` when it resolves to `r`
(where `r = none` embeds a resolution to `undefined`/`void`). -/
structure ToolResult where
  code : List String
  captureSnapshot : Bool
  waitForNetwork : Bool
  action : Option (Except String (Option ToolActionResult))

/-- `Tool` from src/src/types.ts, with `handle` specialised to the mock
execution context of `Server.createConnection`. -/
structure Tool where
  capability : ToolCapability
  schema : ToolSchema
  handle : Args → Except String ToolResult

/-- The `navigate` tool factory of src/src/tools/search.ts. Under the
mock context `ensureTab` and `tab.navigate` always succeed. -/
def navigate (captureSnapshot : Bool) : Tool where
  capability := .core
  schema :=
    { name := "browser_navigate"
      title := "Navigate to a URL"
      description := "Navigate to a URL"
      inputSchema := [⟨"url", .str, true⟩]
      type := .destructive }
  handle := fun params =>
    .ok { code := ["await page.goto(\x27" ++ (getArg params "url").render ++ "\x27);"]
          captureSnapshot := captureSnapshot
          waitForNetwork := false
          action := none }

/-- The `click` tool factory of src/src/tools/search.ts. -/
def click (captureSnapshot : Bool) : Tool where
  capability := .core
  schema :=
    { name := "browser_click"
      title := "Click on element"
      description := "Click on an element"
      inputSchema := [⟨"selector", .str, true⟩]
      type := .destructive }
  handle := fun params =>
    .ok { code := ["await page.click(\x27" ++ (getArg params "selector").render ++ "\x27);"]
          captureSnapshot := captureSnapshot
          waitForNetwork := false
          action := none }

/-- The `type` tool factory of src/src/tools/search.ts. -/
def type (captureSnapshot : Bool) : Tool where
  capability := .core
  schema :=
    { name := "browser_type"
      title := "Type text"
      description := "Type text into an input field"
      inputSchema := [⟨"selector", .str, true⟩, ⟨"text", .str, true⟩]
      type := .destructive }
  handle := fun params =>
    .ok { code := ["await page.fill(\x27" ++ (getArg params "selector").render ++ "\x27, \x27" ++
                   (getArg params "text").render ++ "\x27);"]
          captureSnapshot := captureSnapshot
          waitForNetwork := false
          action := none }

/-- The `screenshot` tool factory of src/src/tools/search.ts. The mock
page returns an empty buffer, whose base64 rendering is the empty
string; the factory ignores its argument and hardcodes
`captureSnapshot: false`. -/
def screenshot (_captureSnapshot : Bool) : Tool where
  capability := .screenshot
  schema :=
    { name := "browser_screenshot"
      title := "Take screenshot"
      description := "Take a screenshot of the current page"
      inputSchema := [⟨"fullPage", .bool, false⟩]
      type := .readOnly }
  handle := fun params =>
    .ok { code := ["await page.screenshot(\x7b fullPage: " ++
                   (if getArg params "fullPage" = .undefined then "false"
                    else (getArg params "fullPage").render) ++ " \x7d);"]
          captureSnapshot := false
          waitForNetwork := false
          action := some (.ok (some ⟨some [.image "" "image/png"]⟩)) }

/-- The `wait` tool factory of src/src/tools/search.ts. -/
def wait (captureSnapshot : Bool) : Tool where
  capability := .wait
  schema :=
    { name := "browser_wait"
      title := "Wait for selector"
      description := "Wait for an element to appear"
      inputSchema := [⟨"selector", .str, true⟩, ⟨"timeout", .num, false⟩]
      type := .readOnly }
  handle := fun params =>
    .ok { code := ["await page.waitForSelector(\x27" ++ (getArg params "selector").render ++
                   "\x27, \x7b timeout: " ++
                   (if getArg params "timeout" = .undefined then "30000"
                    else (getArg params "timeout").render) ++ " \x7d);"]
          captureSnapshot := captureSnapshot
          waitForNetwork := false
          action := none }

/-- The `goBack` tool factory of src/src/tools/search.ts. -/
def goBack (captureSnapshot : Bool) : Tool where
  capability := .history
  schema :=
    { name := "browser_navigate_back"
      title := "Go back"
      description := "Go back to the previous page"
      inputSchema := []
      type := .readOnly }
  handle := fun _params =>
    .ok { code := ["await page.goBack();"]
          captureSnapshot := captureSnapshot
          waitForNetwork := false
          action := none }

/-- The `getText` tool factory of src/src/tools/search.ts. The mock page
returns the empty string for `textContent`, and the empty string is
falsy, so `text || ` yields the empty string. -/
def getText (_captureSnapshot : Bool) : Tool where
  capability := .core
  schema :=
    { name := "browser_get_text"
      title := "Get text content"
      description := "Get text content of an element"
      inputSchema := [⟨"selector", .str, true⟩]
      type := .readOnly }
  handle := fun params =>
    .ok { code := ["await page.textContent(\x27" ++ (getArg params "selector").render ++ "\x27);"]
          captureSnapshot := false
          waitForNetwork := false
          action := some (.ok (some ⟨some [.text ""]⟩)) }

/-- The `newTab` tool factory of src/src/tools/search.ts. The goto line
is included only when `params.url` is truthy, and the empty-string
placeholder is filtered out of the code list. -/
def newTab (captureSnapshot : Bool) : Tool where
  capability := .tabs
  schema :=
    { name := "browser_new_tab"
      title := "Open new tab"
      description := "Open a new browser tab"
      inputSchema := [⟨"url", .str, false⟩]
      type := .destructive }
  handle := fun params =>
    .ok { code := (["const newPage = await context.newPage();",
                    if (getArg params "url").truthy then
                      "await newPage.goto(\x27" ++ (getArg params "url").render ++ "\x27);"
                    else ""]).filter (fun s => s ≠ "")
          captureSnapshot := captureSnapshot
          waitForNetwork := false
          action := none }

/-- The `closeTab` tool factory of src/src/tools/search.ts. -/
def closeTab (_captureSnapshot : Bool) : Tool where
  capability := .tabs
  schema :=
    { name := "browser_close_tab"
      title := "Close tab"
      description := "Close a browser tab"
      inputSchema := [⟨"tabId", .str, true⟩]
      type := .destructive }
  handle := fun _params =>
    .ok { code := ["await page.close();"]
          captureSnapshot := false
          waitForNetwork := false
          action := none }

/-- The `evaluate` tool factory of src/src/tools/search.ts. The mock
context evaluates every expression to `undefined`, so the JSON
rendering of the result is the undefined value, rendered here as its
template string. -/
def evaluate (_captureSnapshot : Bool) : Tool where
  capability := .console
  schema :=
    { name := "browser_evaluate"
      title := "Evaluate JavaScript"
      description := "Execute JavaScript in the browser context"
      inputSchema := [⟨"expression", .str, true⟩]
      type := .destructive }
  handle := fun params =>
    .ok { code := ["await page.evaluate(\x27" ++ (getArg params "expression").render ++ "\x27);"]
          captureSnapshot := false
          waitForNetwork := false
          action := some (.ok (some ⟨some [.text Value.undefined.render]⟩)) }

/-- The `snapshotTools` collection of src/src/tools/search.ts. -/
def snapshotTools : List Tool :=
  [navigate true, click true, type true, screenshot true, wait true,
   goBack true, getText true, newTab true, closeTab true, evaluate true]

/-- The `visionTools` collection of src/src/tools/search.ts. -/
def visionTools : List Tool :=
  [navigate false, screenshot false, wait false, goBack false, getText false,
   newTab false, closeTab false, evaluate false]

/-- The relevant part of `FullConfig` from src/src/types.ts: the mode
flag selecting the tool collection and the optional capability
allow-list. An absent `capabilities` property is `none`; an explicitly
supplied list (possibly empty) is `some`. -/
structure FullConfig where
  vision : Bool
  capabilities : Option (List ToolCapability)

/-- The capability filter of `Server.createConnection`
(src/src/server.ts lines 37 to 41):
`!config.capabilities || tool.capability === core ||`
`config.capabilities.includes(tool.capability)`.
In JavaScript an absent list is falsy but an empty array is truthy, so
the first disjunct is exactly `capabilities.isNone`. -/
def filterTools (allTools : List Tool) (capabilities : Option (List ToolCapability)) :
    List Tool :=
  allTools.filter fun tool =>
    capabilities.isNone || tool.capability == .core ||
      (capabilities.getD []).contains tool.capability

/-- The tool subset bound to a connection by `Server.createConnection`
(src/src/server.ts line 36): the vision or snapshot collection, run
through the capability filter. -/
def connectionTools (config : FullConfig) : List Tool :=
  filterTools (if config.vision then visionTools else snapshotTools) config.capabilities

/-- The JSON-schema rendering produced by `zodToJsonSchema` for the zod
object schemas of this repository: property names with their types, and
the list of required property names. -/
structure JsonSchema where
  properties : List (String × FieldType)
  required : List String
deriving DecidableEq, Repr

/-- `zodToJsonSchema` applied to a zod object schema of this
repository. -/
def zodToJsonSchema (s : InputSchema) : JsonSchema where
  properties := s.map fun f => (f.name, f.fieldType)
  required := (s.filter fun f => f.required).map fun f => f.name

/-- A tool descriptor as returned by the list-tools handler. -/
structure ToolDescriptor where
  name : String
  description : String
  inputSchema : JsonSchema
deriving DecidableEq, Repr

/-- A session of the server: the per-connection state captured by the
request handlers of `Server.createConnection`. The handlers close only
over the filtered tool list; it is the whole mutable state they can
touch. -/
structure Session where
  tools : List Tool

/-- The body of the ListToolsRequestSchema handler (src/src/server.ts
lines 74 to 82), mapping each tool of the session to its descriptor.
The handler is embedded as a state transformer on the session to make
its freedom from side effects a provable statement. -/
def listToolsHandler (s : Session) : Session × List ToolDescriptor :=
  (s, s.tools.map fun tool =>
    { name := tool.schema.name
      description := tool.schema.description
      inputSchema := zodToJsonSchema tool.schema.inputSchema })

/-- The response of the call-tool handler: a content list, and the
`isError` property (`some true` when the handler sets it, `none` when
the handler omits it). -/
structure CallToolResponse where
  content : List ContentItem
  isError : Option Bool
deriving DecidableEq, Repr

/-- The not-found response built by the call-tool handler
(src/src/server.ts lines 87 to 90); it depends on the requested name
only. -/
def notFoundResponse (name : String) : CallToolResponse where
  content := [.text ("Tool \x22" ++ name ++ "\x22 not found")]
  isError := some true

/-- The fixed success payload of the call-tool handler
(src/src/server.ts lines 101 to 103). -/
def successResponse : CallToolResponse where
  content := [.text "Tool executed successfully"]
  isError := none

/-- The error response of the catch clause (src/src/server.ts lines 104
to 109), carrying the `String(error)` rendering of the fault. -/
def errorResponse (msg : String) : CallToolResponse where
  content := [.text msg]
  isError := some true

/-- The body of the CallToolRequestSchema handler (src/src/server.ts
lines 84 to 110): find the tool by name in the filtered list; if
absent, answer the not-found response; otherwise run `tool.handle` on
the raw arguments and, when the result carries an action, run it; a
present `content` property of the action result (truthy, since arrays
are truthy in JavaScript even when empty) is returned verbatim,
otherwise the fixed success payload; any fault of `handle` or of the
action is caught and becomes the error response. -/
def callToolHandler (tools : List Tool) (name : String) (args : Args) :
    CallToolResponse :=
  match tools.find? (fun t => t.schema.name == name) with
  | none => notFoundResponse name
  | some tool =>
    match tool.handle args with
    | .error e => errorResponse e
    | .ok result =>
      match result.action with
      | none => successResponse
      | some actionOutcome =>
        match actionOutcome with
        | .error e => errorResponse e
        | .ok actionResult =>
          match actionResult.bind (fun r => r.content) with
          | some c => { content := c, isError := none }
          | none => successResponse

/-- Validation of an arguments mapping against a zod object schema of
this repository: every required field must be present with the declared
type, every present declared field must have the declared type (zod
strips undeclared keys rather than rejecting them). This is the
validation the specification requires of the dispatcher; the handler in
src/src/server.ts never invokes it. -/
def validateArgs (schema : InputSchema) (args : Args) : Bool :=
  schema.all fun f =>
    match args.lookup f.name with
    | some v =>
      match v, f.fieldType with
      | .str _, .str => true
      | .num _, .num => true
      | .bool _, .bool => true
      | _, _ => false
    | none => !f.required

/-- A connection held in the `_connectionList` of the `Server` class,
identified for the close actions of the watchdog. -/
structure Connection where
  id : Nat
deriving DecidableEq, Repr

/-- The observable steps the exit watchdog performs, in order. -/
inductive WatchdogAction
  | armTimer (ms : Nat)
  | closeConnection (id : Nat)
  | exitProcess (code : Nat)
deriving DecidableEq, Repr

/-- The state of the exit watchdog: the re-entrancy guard
`isExiting`. -/
structure WatchdogState where
  isExiting : Bool
deriving DecidableEq, Repr

/-- The `handleExit` closure of `Server.setupExitWatchdog`
(src/src/server.ts lines 120 to 126), installed for SIGINT, SIGTERM and
stdin close: under the guard it returns at once with no action;
otherwise it sets the guard, arms the 15000 ms hard-exit timer, awaits
the close of every connection of the list, and exits with code 0. -/
def handleExit (connections : List Connection) (s : WatchdogState) :
    WatchdogState × List WatchdogAction :=
  if s.isExiting then (s, [])
  else
    (⟨true⟩,
      .armTimer 15000 ::
        (connections.map fun c => .closeConnection c.id) ++ [.exitProcess 0])

/-- An entry of one of the per-transport session maps of the HTTP entry
point: the bound transport handle and connection, with their closed
flags. -/
structure SessionEntry where
  transportClosed : Bool
  connectionClosed : Bool
deriving DecidableEq, Repr

/-- A session store of the HTTP entry point (`streamableSessions` or
`sseSessions`): a map from session id to entry, embedded as an
association list with at most one entry per id. -/
abbrev SessionStore := List (String × SessionEntry)

/-- `Map.get` on a session store. -/
def SessionStore.lookup (store : SessionStore) (sid : String) : Option SessionEntry :=
  List.lookup sid store

/-- `Map.delete` on a session store. -/
def SessionStore.erase (store : SessionStore) (sid : String) : SessionStore :=
  store.filter fun p => p.1 ≠ sid

/-- Side effects the SSE event handlers may perform besides mutating
the session map. -/
inductive SseEffect
  | logError
  | closeTransport (sid : String)
  | closeConnection (sid : String)
  | forwardToTransport (sid : String)
deriving DecidableEq, Repr

/-- The `transport.onerror` handler installed by `handleSSE`
(src/unnamed/part_002 lines 42 to 45): log the error and delete the
session from the map. No close call is made on the transport or the
connection. -/
def onSseError (store : SessionStore) (sid : String) :
    SessionStore × List SseEffect :=
  (store.erase sid, [.logError])

/-- The `transport.onclose` handler installed by `handleSSE`
(src/unnamed/part_002 lines 47 to 49): delete the session from the
map. No close call is made on the transport or the connection. -/
def onSseClose (store : SessionStore) (sid : String) :
    SessionStore × List SseEffect :=
  (store.erase sid, [])

/-- An HTTP response written by the SSE POST branch: status code and
body. -/
structure HttpResponse where
  status : Nat
  body : String
deriving DecidableEq, Repr

/-- The POST branch of `handleSSE` (src/unnamed/part_002 lines 52 to
79). The session id is read off the x-session-id header (possibly
absent); an unknown or missing id is answered 404 Session not found. A
known id reads the body and runs `JSON.parse` on it — embedded as the
abstract predicate `parseOk` — answering 200 on success and 400 on a
parse failure. The parsed message is dropped: nothing is forwarded to
the transport, the map is untouched, and no other effect happens. -/
def handleSsePost (parseOk : String → Bool) (store : SessionStore)
    (sessionId : Option String) (body : String) :
    SessionStore × HttpResponse × List SseEffect :=
  match sessionId.bind (fun sid => store.lookup sid) with
  | none => (store, ⟨404, "Session not found"⟩, [])
  | some _ =>
    if parseOk body then
      (store, ⟨200, "\x7b\x22success\x22:true\x7d"⟩, [])
    else
      (store, ⟨400, "\x7b\x22error\x22:\x22Invalid JSON\x22\x7d"⟩, [])

/-- The outcome of `handleStreamable` for one request.
`forwardToExisting` hands the request to the transport of the stored
session; `newSession` is the initialization path, which builds a fresh
connection and transport and lets them handle the request;
`notFoundRejection` is the outcome the specification demands for an
unknown session id — the code never produces it on this path. -/
inductive StreamableOutcome
  | forwardToExisting (sid : String)
  | newSession
  | notFoundRejection
deriving DecidableEq, Repr

/-- `handleStreamable` (src/unnamed/part_002 lines 83 to 109): when the
mcp-session-id header names a stored session, the request is forwarded
to that session; in every other case — header absent, or header
present but unknown — the function falls through to the
new-session initialization path, creating a fresh connection and
transport that handle the request. -/
def handleStreamable (store : SessionStore) (sessionId : Option String) :
    StreamableOutcome :=
  match sessionId with
  | some sid =>
    match store.lookup sid with
    | some _ => .forwardToExisting sid
    | none => .newSession
  | none => .newSession

/-- Erasing a session id from a store makes it unfindable. -/
theorem SessionStore.lookup_erase (store : SessionStore) (sid : String) :
    (store.erase sid).lookup sid = none := by
  induction store with
  | nil => rfl
  | cons p rest ih =>
    by_cases h : p.1 = sid
    · have hstep : SessionStore.erase (p :: rest) sid = SessionStore.erase rest sid := by
        simp [SessionStore.erase, List.filter, h]
      rw [hstep]
      exact ih
    · have hstep : SessionStore.erase (p :: rest) sid = p :: SessionStore.erase rest sid := by
        simp [SessionStore.erase, List.filter, h]
      rw [hstep]
      have hne : (sid == p.1) = false := by
        simp
        exact fun heq => h heq.symm
      simpa [SessionStore.lookup, List.lookup, hne] using ih

/-- Claim C1: a tool of the active collection is always visible when the
capability configuration is absent; when a capability list is present
(an empty one included) the tool is visible exactly when its capability
tag is core or a member of the list; an explicit empty list yields
exactly the core-tagged tools, which on the snapshot collection differs
from the absent configuration yielding every tool. -/
theorem capability_filter_spec (tools : List Tool) (tool : Tool) (h : tool ∈ tools) :
    (tool ∈ filterTools tools none
      ∧ ∀ caps : List ToolCapability,
          (tool ∈ filterTools tools (some caps) ↔
            tool.capability = .core ∨ tool.capability ∈ caps))
    ∧ filterTools tools (some []) = tools.filter (fun t => t.capability == .core)
    ∧ (filterTools snapshotTools (some [])).length ≠
        (filterTools snapshotTools none).length := by
  refine ⟨⟨?_, ?_⟩, ?_, ?_⟩
  · exact List.mem_filter.mpr ⟨h, by simp⟩
  · intro caps
    constructor
    · intro hmem
      have hp := (List.mem_filter.mp hmem).2
      simpa using hp
    · intro hcap
      refine List.mem_filter.mpr ⟨h, ?_⟩
      simpa using hcap
  · apply List.filter_congr
    intro t _
    simp
  · decide

/-- Witness for C1: the navigate tool of the snapshot collection is
visible under the absent configuration, and under the list containing
only the tabs capability its visibility reduces to its tag being core
or tabs. -/
theorem capability_filter_spec_witness :
    navigate true ∈ filterTools snapshotTools none
    ∧ (navigate true ∈ filterTools snapshotTools (some [ToolCapability.tabs]) ↔
        (navigate true).capability = .core ∨
          (navigate true).capability ∈ [ToolCapability.tabs]) := by
  have h := capability_filter_spec snapshotTools (navigate true) (by simp [snapshotTools])
  exact ⟨h.1.1, h.1.2 [ToolCapability.tabs]⟩

/-- Claim C2: whenever the requested name matches no tool of the
visible subset of a session — whether the name belongs to a registry
tool hidden by the capability filter or to no tool at all — the
call-tool handler answers the not-found response, whose shape is a
function of the requested name only, so the two cases are
indistinguishable from the response. -/
theorem hidden_tool_indistinguishable (allTools : List Tool)
    (caps : Option (List ToolCapability)) (name : String) (args : Args)
    (h : ∀ t ∈ filterTools allTools caps, t.schema.name ≠ name) :
    callToolHandler (filterTools allTools caps) name args = notFoundResponse name := by
  have hfind : (filterTools allTools caps).find? (fun t => t.schema.name == name) = none :=
    List.find?_eq_none.mpr (fun t ht => by simp [h t ht])
  simp [callToolHandler, hfind]

/-- Witness for C2: with the explicit empty capability list,
browser_screenshot (a real tool hidden by the filter) and no_such_tool
(a name of no tool) both get the same not-found response shape. -/
theorem hidden_tool_indistinguishable_witness :
    callToolHandler (filterTools snapshotTools (some [])) "browser_screenshot" [] =
      notFoundResponse "browser_screenshot"
    ∧ callToolHandler (filterTools snapshotTools (some [])) "no_such_tool" [] =
      notFoundResponse "no_such_tool" :=
  ⟨hidden_tool_indistinguishable snapshotTools (some []) "browser_screenshot" [] (by decide),
   hidden_tool_indistinguishable snapshotTools (some []) "no_such_tool" [] (by decide)⟩

/-- Claim C3 (code bug): the call-tool handler performs no schema
validation. The empty arguments mapping violates the browser_navigate
input schema (url is required), yet the handler invokes the executor
with it and answers the plain success payload instead of a ToolResult
error. -/
theorem navigate_unvalidated_arguments_reach_executor :
    validateArgs (navigate true).schema.inputSchema [] = false
    ∧ callToolHandler snapshotTools "browser_navigate" [] = successResponse := by
  exact ⟨rfl, rfl⟩

/-- Claim C4: a fault raised by the executor — by the handle call or by
the action it returns — is caught at the dispatch boundary and becomes
a response whose single text item is the fault rendering, with isError
true. The handler is a total function into responses, so the fault
never escapes it. -/
theorem executor_fault_contained (tools : List Tool) (name : String) (args : Args)
    (tool : Tool) (msg : String)
    (hfind : tools.find? (fun t => t.schema.name == name) = some tool)
    (hfault : tool.handle args = .error msg
      ∨ ∃ result, tool.handle args = .ok result ∧ result.action = some (.error msg)) :
    callToolHandler tools name args = errorResponse msg := by
  rcases hfault with hf | ⟨result, h1, h2⟩
  · simp [callToolHandler, hfind, hf]
  · simp [callToolHandler, hfind, h1, h2]

/-- A tool whose executor always rejects, used to exercise the fault
path of the dispatcher. -/
def faultyTool : Tool where
  capability := .core
  schema :=
    { name := "faulty"
      title := "Faulty"
      description := "Always rejects"
      inputSchema := []
      type := .readOnly }
  handle := fun _ => .error "Error: boom"

/-- Witness for C4: dispatching to the always-rejecting tool yields the
error response carrying the fault rendering. -/
theorem executor_fault_contained_witness :
    callToolHandler [faultyTool] "faulty" [] = errorResponse "Error: boom" :=
  executor_fault_contained [faultyTool] "faulty" [] faultyTool "Error: boom" rfl (Or.inl rfl)

/-- Counterexample to claim C5: with an empty session store, a
streamable-HTTP request carrying the unknown session id abc is not
rejected with a session-not-found signal; the handler takes the
new-session initialization path, creating a fresh connection and
transport to process the request. -/
theorem streamable_unknown_session_counterexample :
    handleStreamable [] (some "abc") = .newSession
    ∧ StreamableOutcome.newSession ≠ .notFoundRejection := by
  exact ⟨rfl, by decide⟩

/-- Claim C5 as amended: on the streaming-HTTP path an unknown session
id falls through to the new-session initialization path; on the SSE
companion POST path, a POST with an unknown or missing session id is
answered 404 Session not found, with the store untouched and no other
effect. -/
theorem unknown_session_handling (store : SessionStore) (sid : String)
    (parseOk : String → Bool) (sseStore : SessionStore) (body : String)
    (h1 : store.lookup sid = none) (h2 : sseStore.lookup sid = none) :
    handleStreamable store (some sid) = .newSession
    ∧ handleSsePost parseOk sseStore (some sid) body =
        (sseStore, ⟨404, "Session not found"⟩, [])
    ∧ ∀ body2, handleSsePost parseOk sseStore none body2 =
        (sseStore, ⟨404, "Session not found"⟩, []) := by
  refine ⟨?_, ?_, fun body2 => ?_⟩
  · simp [handleStreamable, h1]
  · simp [handleSsePost, h2]
  · simp [handleSsePost]

/-- Witness for the amended C5 at a concrete store and id. -/
theorem unknown_session_handling_witness :
    handleStreamable [] (some "abc") = .newSession
    ∧ handleSsePost (fun _ => true) [] (some "abc") "x" =
        ([], ⟨404, "Session not found"⟩, []) := by
  have h := unknown_session_handling [] "abc" (fun _ => true) [] "x" rfl rfl
  exact ⟨h.1, h.2.1⟩

/-- Claim C6: on the first termination signal the watchdog sets the
guard, arms the 15000 ms hard-exit timer, awaits the close of every
connection of the list in order, and exits with code 0; a signal
arriving while the guard is set performs no action and leaves the state
unchanged; after any handled signal the guard holds, so a subsequent
signal is always a no-op. -/
theorem exit_watchdog_spec (connections : List Connection) (s : WatchdogState) :
    (s.isExiting = false →
      handleExit connections s =
        (⟨true⟩,
          .armTimer 15000 ::
            (connections.map fun c => .closeConnection c.id) ++ [.exitProcess 0]))
    ∧ (s.isExiting = true → handleExit connections s = (s, []))
    ∧ handleExit connections (handleExit connections s).1 =
        ((handleExit connections s).1, []) := by
  refine ⟨?_, ?_, ?_⟩
  · intro h
    simp [handleExit, h]
  · intro h
    simp [handleExit, h]
  · cases s with
    | mk flag =>
      cases flag <;> simp [handleExit]

/-- Witness for C6: with two live connections and the guard unset, the
first signal arms the timer, closes both connections and exits; rerun
on the resulting state, the handler does nothing. -/
theorem exit_watchdog_spec_witness :
    handleExit [⟨1⟩, ⟨2⟩] ⟨false⟩ =
      (⟨true⟩, [.armTimer 15000, .closeConnection 1, .closeConnection 2, .exitProcess 0])
    ∧ handleExit [⟨1⟩, ⟨2⟩] ⟨true⟩ = (⟨true⟩, []) := by
  have h := exit_watchdog_spec [⟨1⟩, ⟨2⟩] (⟨false⟩ : WatchdogState)
  have h2 := exit_watchdog_spec [⟨1⟩, ⟨2⟩] (⟨true⟩ : WatchdogState)
  exact ⟨by simpa using h.1 rfl, h2.2.1 rfl⟩

/-- Counterexample to claim C7: on loss of the push channel reported
through the transport error event, the installed handler removes the
session from the store but performs no close on the bound transport
handle or the connection — the effect list of the handler is only the
error log, against the termination the claim demands. -/
theorem sse_error_no_close_counterexample :
    (onSseError [("s1", ⟨false, false⟩)] "s1").1 = []
    ∧ (onSseError [("s1", ⟨false, false⟩)] "s1").2 = [.logError]
    ∧ SseEffect.closeTransport "s1" ∉ (onSseError [("s1", ⟨false, false⟩)] "s1").2
    ∧ SseEffect.closeConnection "s1" ∉ (onSseError [("s1", ⟨false, false⟩)] "s1").2 := by
  refine ⟨rfl, rfl, by decide, by decide⟩

/-- Claim C7 as amended: loss of the push channel — the transport error
event or the transport close event — removes the owning session from
the session store, after which the id is unfindable and a companion
POST carrying it is answered 404 Session not found; the handlers
themselves issue no close call on the transport handle or the
connection (on the close event the handle is already closed by the
event source; on an error the entry is simply dropped). -/
theorem sse_channel_loss_removes_session (store : SessionStore) (sid : String)
    (parseOk : String → Bool) (body : String) :
    (onSseError store sid).1 = store.erase sid
    ∧ (onSseClose store sid).1 = store.erase sid
    ∧ (store.erase sid).lookup sid = none
    ∧ handleSsePost parseOk (store.erase sid) (some sid) body =
        (store.erase sid, ⟨404, "Session not found"⟩, [])
    ∧ (onSseError store sid).2 = [.logError]
    ∧ (onSseClose store sid).2 = [] := by
  refine ⟨rfl, rfl, SessionStore.lookup_erase store sid, ?_, rfl, rfl⟩
  simp [handleSsePost, SessionStore.lookup_erase store sid]

/-- Claim C8: the list-tools handler leaves the session unchanged (no
execution, no side effect on session state), and returns one descriptor
per tool of the visible subset, in the order of the subset, each
carrying the name, description and serialized input schema of the
corresponding tool. -/
theorem list_tools_spec (s : Session) :
    (listToolsHandler s).1 = s
    ∧ (listToolsHandler s).2.length = s.tools.length
    ∧ ∀ i tool, s.tools.get? i = some tool →
        (listToolsHandler s).2.get? i = some
          { name := tool.schema.name
            description := tool.schema.description
            inputSchema := zodToJsonSchema tool.schema.inputSchema } := by
  refine ⟨rfl, by simp [listToolsHandler], ?_⟩
  intro i tool h
  show (s.tools.map _).get? i = _
  rw [List.get?_map, h]
  rfl

/-- Witness for C8: on a session holding the snapshot collection, the
handler leaves the session unchanged and its first descriptor is the
serialization of the navigate tool. -/
theorem list_tools_spec_witness :
    (listToolsHandler ⟨snapshotTools⟩).1 = ⟨snapshotTools⟩
    ∧ (listToolsHandler ⟨snapshotTools⟩).2.get? 0 = some
        { name := "browser_navigate"
          description := "Navigate to a URL"
          inputSchema := ⟨[("url", .str)], ["url"]⟩ } := by
  have h := list_tools_spec ⟨snapshotTools⟩
  refine ⟨h.1, ?_⟩
  have h0 := h.2.2 0 (navigate true) rfl
  rw [h0]
  rfl

/-- A tool whose action resolves to an empty content list, exercising
the truthiness branch of the dispatcher on the value content equal to
the empty array. -/
def emptyContentTool : Tool where
  capability := .core
  schema :=
    { name := "empty_content"
      title := "Empty content"
      description := "Action resolves to an empty content list"
      inputSchema := []
      type := .readOnly }
  handle := fun _ =>
    .ok { code := []
          captureSnapshot := false
          waitForNetwork := false
          action := some (.ok (some ⟨some []⟩)) }

/-- Counterexample to claim C9: an action resolving to an object whose
content property is the empty list yields no content items, yet the
handler does not answer the fixed success payload — in JavaScript an
empty array is truthy, so the empty content list is returned
verbatim. -/
theorem empty_content_returned_verbatim_counterexample :
    callToolHandler [emptyContentTool] "empty_content" [] =
      ({ content := [], isError := none } : CallToolResponse)
    ∧ ({ content := [], isError := none } : CallToolResponse) ≠ successResponse := by
  exact ⟨rfl, by decide⟩

/-- Claim C9 as amended: the handler answers the fixed payload — one
text item reading Tool executed successfully, no isError — exactly when
the result has no action or the action resolves without a content
property; whenever the action resolves with a present content property,
that value is returned verbatim with no isError, even when it is the
empty list. -/
theorem call_tool_success_payload (tools : List Tool) (name : String) (args : Args)
    (tool : Tool) (result : ToolResult)
    (hfind : tools.find? (fun t => t.schema.name == name) = some tool)
    (hok : tool.handle args = .ok result) :
    (result.action = none → callToolHandler tools name args = successResponse)
    ∧ (∀ actionResult, result.action = some (.ok actionResult) →
        actionResult.bind (fun r => r.content) = none →
        callToolHandler tools name args = successResponse)
    ∧ (∀ actionResult c, result.action = some (.ok actionResult) →
        actionResult.bind (fun r => r.content) = some c →
        callToolHandler tools name args = { content := c, isError := none }) := by
  refine ⟨?_, ?_, ?_⟩
  · intro h
    simp [callToolHandler, hfind, hok, h]
  · intro actionResult h1 h2
    simp [callToolHandler, hfind, hok, h1, h2]
  · intro actionResult c h1 h2
    simp [callToolHandler, hfind, hok, h1, h2]

/-- Witness for the amended C9: a navigate call (whose result has no
action) answers the fixed success payload. -/
theorem call_tool_success_payload_witness :
    callToolHandler snapshotTools "browser_navigate"
        [("url", .str "https://example.com")] = successResponse := by
  have h := call_tool_success_payload snapshotTools "browser_navigate"
    [("url", .str "https://example.com")] (navigate true)
    { code := ["await page.goto(\x27https://example.com\x27);"]
      captureSnapshot := true
      waitForNetwork := false
      action := none }
    rfl rfl
  exact h.1 rfl

/-- Claim C10: a POST on the SSE path carrying a known session id
leaves the store untouched and produces no effect — nothing is
forwarded to the transport or the dispatcher, so no tool can execute —
and answers 200 with the success body when the body parses as JSON and
400 with the invalid-JSON body otherwise; this holds for every parse
behavior. -/
theorem sse_post_frame (parseOk : String → Bool) (store : SessionStore)
    (sid : String) (body : String) (h : (store.lookup sid).isSome) :
    handleSsePost parseOk store (some sid) body =
      (store,
        (if parseOk body then (⟨200, "\x7b\x22success\x22:true\x7d"⟩ : HttpResponse)
         else ⟨400, "\x7b\x22error\x22:\x22Invalid JSON\x22\x7d"⟩),
        []) := by
  obtain ⟨e, he⟩ := Option.isSome_iff_exists.mp h
  by_cases hp : parseOk body
  · simp [handleSsePost, he, hp]
  · simp [handleSsePost, he, hp]

/-- Witness for C10: on a store holding session s1, a POST with a body
the parser accepts answers 200 success, and one the parser refuses
answers 400 invalid JSON, both leaving the store as it was with no
effect. -/
theorem sse_post_frame_witness :
    handleSsePost (fun b => b == "\x7b\x7d") [("s1", ⟨false, false⟩)] (some "s1") "\x7b\x7d" =
      ([("s1", ⟨false, false⟩)], ⟨200, "\x7b\x22success\x22:true\x7d"⟩, [])
    ∧ handleSsePost (fun b => b == "\x7b\x7d") [("s1", ⟨false, false⟩)] (some "s1") "nope" =
      ([("s1", ⟨false, false⟩)], ⟨400, "\x7b\x22error\x22:\x22Invalid JSON\x22\x7d"⟩, []) := by
  have hyes := sse_post_frame (fun b => b == "\x7b\x7d") [("s1", ⟨false, false⟩)] "s1"
    "\x7b\x7d" (by rfl)
  have hno := sse_post_frame (fun b => b == "\x7b\x7d") [("s1", ⟨false, false⟩)] "s1"
    "nope" (by rfl)
  exact ⟨by simpa using hyes, by simpa using hno⟩

end PlaywrightMcp
